import Mathlib

/-!
Verification development for the assignment-toolkit core: a shallow
embedding in Lean 4 of the type-resolution registry (type-mapping.go), the
package validator and content hasher (commands.go), and the format
converter and batch synchronization loop (sync.go), together with theorems
about the embedded definitions.

Conventions of the embedding:
* Go strings are Lean `String`s; the Go `strings` helpers are modelled on
  their ASCII fragment (the registry data and all inputs of interest are
  ASCII).
* Go maps are modelled as insertion lists of key/value pairs; lookup takes
  the last binding for a key (Go assignment overwrites).  Map iteration
  order is unspecified in Go, so functions that iterate a map take the
  iteration order as an explicit parameter, constrained to be a
  permutation of the stored entries.
* Machine `int`s are modelled as `Int`; fallible operations return
  `Except`.
* Impure inputs (wall-clock time, fresh UUIDs, the network) are explicit
  parameters.
-/

/-- ASCII lowercasing of one character, the fragment of Go `strings.ToLower`
relevant to the registry data. -/
def lowerChar (c : Char) : Char :=
  if 65 ≤ c.toNat ∧ c.toNat ≤ 90 then Char.ofNat (c.toNat + 32) else c

/-- Model of Go `strings.ToLower` (ASCII fragment). -/
def goToLower (s : String) : String :=
  String.mk (s.data.map lowerChar)

/-- Model of Go `unicode.IsSpace` on ASCII: space, \t, \n, \v, \f, \r. -/
def isGoSpace (c : Char) : Bool :=
  c == ' ' || c == '\t' || c == '\n' || c == Char.ofNat 11 ||
    c == Char.ofNat 12 || c == '\r'

/-- Model of Go `strings.TrimSpace`: drop leading and trailing whitespace. -/
def goTrimSpace (s : String) : String :=
  String.mk (((s.data.dropWhile isGoSpace).reverse.dropWhile isGoSpace).reverse)

/-- Does `pre` occur at the start of `l`?  (Executable helper for
`containsSeg`.) -/
def leadsWith : List Char → List Char → Bool
  | [], _ => true
  | _ :: _, [] => false
  | a :: as, b :: bs => a == b && leadsWith as bs

/-- Does `sub` occur as a contiguous segment of the second list? -/
def containsSeg (sub : List Char) : List Char → Bool
  | [] => sub.isEmpty
  | c :: rest => leadsWith sub (c :: rest) || containsSeg sub rest

/-- Model of Go `strings.Contains s sub`. -/
def goContains (s sub : String) : Bool :=
  containsSeg sub.data s.data

/-- TypeMapping handles assignment type conflicts and transformations
(type-mapping.go). -/
structure TypeMapping where
  PortableType : String
  LMSType : String
  LMSSubtype : String
  Description : String
  Deprecated : Bool
deriving DecidableEq

/-- AssignmentTypeManager manages type mappings and conflicts; the two Go
maps are modelled as insertion lists. -/
structure AssignmentTypeManager where
  mappings : List (String × TypeMapping)
  aliases : List (String × String)

/-- Go map lookup over an insertion list: the last binding for a key wins
(assignment to an existing key overwrites). -/
def goMapGet {α : Type} (l : List (String × α)) (k : String) : Option α :=
  (l.reverse.find? (fun p => p.1 == k)).map Prod.snd

/-- The direct mappings table of initializeDefaultMappings
(type-mapping.go lines 38-68), verbatim. -/
def directMappings : List TypeMapping :=
  [⟨"multiple-choice", "multiple-choice", "", "Multiple choice questions", false⟩,
   ⟨"true-false", "true-false", "", "True/false questions", false⟩,
   ⟨"matching", "matching", "", "Match items from two lists", false⟩,
   ⟨"writing-short", "writing", "", "Short writing assignments", false⟩,
   ⟨"writing-long", "writing-long", "", "Extended writing assignments", false⟩,
   ⟨"speaking", "speaking", "", "Oral presentation assignments", false⟩,
   ⟨"listening", "listening", "", "Audio comprehension exercises", false⟩,
   ⟨"code-submission", "code-submission", "", "Programming assignments", false⟩,
   ⟨"image-upload", "image-upload", "", "Image upload assignments", false⟩,
   ⟨"line-match", "line-match", "", "Line matching exercises (LMS specific)", false⟩,
   ⟨"phoneme-build", "phoneme-build", "", "Phoneme building exercises (LMS specific)", false⟩,
   ⟨"drag-drop-ordering", "drag-and-drop", "ordering", "Drag and drop ordering", false⟩,
   ⟨"drag-drop-categorization", "drag-and-drop", "categorization", "Drag and drop categorization", false⟩,
   ⟨"drag-drop-fill-blank", "drag-and-drop", "fill-blank", "Drag and drop fill in blanks", false⟩,
   ⟨"drag-drop-labeling", "drag-and-drop", "labeling", "Drag and drop labeling", false⟩,
   ⟨"drag-drop-image-caption", "drag-and-drop", "image-caption", "Drag and drop image captions", false⟩,
   ⟨"generic-assignment", "assignment", "", "Generic assignment type", false⟩,
   ⟨"essay", "writing-long", "", "Essay assignment (mapped to writing-long)", false⟩,
   ⟨"quiz", "multiple-choice", "", "Quiz assignment (mapped to multiple-choice)", false⟩,
   ⟨"presentation", "speaking", "", "Presentation (mapped to speaking)", false⟩,
   ⟨"comprehension", "listening", "", "Comprehension exercise (mapped to listening)", false⟩]

/-- The aliases table of initializeDefaultMappings (type-mapping.go lines
75-91), verbatim. -/
def defaultAliases : List (String × String) :=
  [("mcq", "multiple-choice"),
   ("mc", "multiple-choice"),
   ("tf", "true-false"),
   ("t/f", "true-false"),
   ("match", "matching"),
   ("essay", "writing-long"),
   ("short-essay", "writing-short"),
   ("code", "code-submission"),
   ("programming", "code-submission"),
   ("drag-drop", "drag-drop-ordering"),
   ("dnd", "drag-drop-ordering"),
   ("oral", "speaking"),
   ("audio", "listening"),
   ("image", "image-upload"),
   ("upload", "image-upload")]

/-- NewAssignmentTypeManager creates a new type manager with the default
mappings (initializeDefaultMappings stores each direct mapping under its
PortableType key, then installs the alias table). -/
def NewAssignmentTypeManager : AssignmentTypeManager :=
  { mappings := directMappings.map (fun m => (m.PortableType, m)),
    aliases := defaultAliases }

/-- ResolveType resolves a portable type to LMS format (type-mapping.go
lines 95-113): normalize, check direct mappings first, then aliases;
otherwise an "unknown assignment type" error. -/
def AssignmentTypeManager.ResolveType (atm : AssignmentTypeManager)
    (portableType : String) : Except String TypeMapping :=
  let normalizedType := goToLower (goTrimSpace portableType)
  match goMapGet atm.mappings normalizedType with
  | some mapping => .ok mapping
  | none =>
    match goMapGet atm.aliases normalizedType with
    | some aliasTarget =>
      match goMapGet atm.mappings aliasTarget with
      | some mapping => .ok mapping
      | none => .error ("unknown assignment type: " ++ portableType)
    | none => .error ("unknown assignment type: " ++ portableType)

/-- ValidatePortableType checks if a portable type is valid. -/
def AssignmentTypeManager.ValidatePortableType (atm : AssignmentTypeManager)
    (portableType : String) : Bool :=
  match atm.ResolveType portableType with
  | .ok _ => true
  | .error _ => false

/-- ConvertToLMSFormat converts a portable assignment type to LMS format:
a thin wrapper over ResolveType returning (LMSType, LMSSubtype). -/
def AssignmentTypeManager.ConvertToLMSFormat (atm : AssignmentTypeManager)
    (portableType : String) : Except String (String × String) :=
  match atm.ResolveType portableType with
  | .ok mapping => .ok (mapping.LMSType, mapping.LMSSubtype)
  | .error e => .error e

/-- Claim C1 (amended): for every alias pair (a, t) in the default
registry, ResolveType a and ResolveType t both succeed and agree on the
LMSType and LMSSubtype components; moreover for every alias key other
than "essay" (the one alias key that is shadowed by a canonical mapping
key) the two resolved TypeMappings are equal outright. -/
theorem resolve_alias_agrees_with_target :
    ∀ p ∈ NewAssignmentTypeManager.aliases,
      ∃ ma mt, NewAssignmentTypeManager.ResolveType p.1 = .ok ma ∧
        NewAssignmentTypeManager.ResolveType p.2 = .ok mt ∧
        ma.LMSType = mt.LMSType ∧ ma.LMSSubtype = mt.LMSSubtype ∧
        (p.1 ≠ "essay" → ma = mt) := by
  intro p hp
  fin_cases hp <;> exact ⟨_, _, rfl, rfl, by decide⟩

/-- Witness for resolve_alias_agrees_with_target at the alias
("essay", "writing-long"). -/
theorem resolve_alias_agrees_with_target_witness :
    ∃ ma mt, NewAssignmentTypeManager.ResolveType "essay" = .ok ma ∧
      NewAssignmentTypeManager.ResolveType "writing-long" = .ok mt ∧
      ma.LMSType = mt.LMSType ∧ ma.LMSSubtype = mt.LMSSubtype ∧
      ("essay" ≠ "essay" → ma = mt) :=
  resolve_alias_agrees_with_target ("essay", "writing-long") (by decide)

/-- Counterexample to claim C1 as stated: "essay" is an alias for
"writing-long", yet ResolveType "essay" does not return the same
TypeMapping as ResolveType "writing-long" — the canonical key "essay"
shadows the alias and carries a different PortableType and Description. -/
theorem resolve_essay_alias_differs :
    goMapGet NewAssignmentTypeManager.aliases "essay" = some "writing-long" ∧
    NewAssignmentTypeManager.ResolveType "essay" =
      .ok ⟨"essay", "writing-long", "", "Essay assignment (mapped to writing-long)", false⟩ ∧
    NewAssignmentTypeManager.ResolveType "writing-long" =
      .ok ⟨"writing-long", "writing-long", "", "Extended writing assignments", false⟩ ∧
    (⟨"essay", "writing-long", "", "Essay assignment (mapped to writing-long)", false⟩ : TypeMapping) ≠
      ⟨"writing-long", "writing-long", "", "Extended writing assignments", false⟩ :=
  ⟨rfl, rfl, rfl, by decide⟩

/-- Claim C2 (amended): in the default registry every alias target is a
key of the canonical mappings table, and every alias key other than
"essay" differs from all canonical portable-type keys ("essay" is both an
alias key and a canonical key; the collision is resolved by checking
canonical keys first). -/
theorem alias_targets_canonical :
    ∀ p ∈ NewAssignmentTypeManager.aliases,
      (goMapGet NewAssignmentTypeManager.mappings p.2).isSome = true ∧
      (p.1 ≠ "essay" → goMapGet NewAssignmentTypeManager.mappings p.1 = none) := by
  decide

/-- Witness for alias_targets_canonical at the alias ("mcq",
"multiple-choice"). -/
theorem alias_targets_canonical_witness :
    (goMapGet NewAssignmentTypeManager.mappings "multiple-choice").isSome = true ∧
    ("mcq" ≠ "essay" → goMapGet NewAssignmentTypeManager.mappings "mcq" = none) :=
  alias_targets_canonical ("mcq", "multiple-choice") (by decide)

/-- Counterexample to claim C2 as stated: the alias key "essay" is also a
canonical portable-type key of the default mappings table. -/
theorem alias_essay_collides_with_canonical :
    goMapGet NewAssignmentTypeManager.aliases "essay" = some "writing-long" ∧
    goMapGet NewAssignmentTypeManager.mappings "essay" ≠ none := by
  decide

/-- Claim C9: every canonical portable type of the default table resolves
successfully, and ConvertToLMSFormat returns a non-empty LMS type with no
error. -/
theorem canonical_types_resolve :
    ∀ m ∈ directMappings,
      (∃ m', NewAssignmentTypeManager.ResolveType m.PortableType = .ok m') ∧
      ∃ t s, NewAssignmentTypeManager.ConvertToLMSFormat m.PortableType = .ok (t, s) ∧
        t ≠ "" := by
  intro m hm
  fin_cases hm <;> exact ⟨⟨_, rfl⟩, _, _, rfl, by decide⟩

/-- Witness for canonical_types_resolve at the canonical entry for
"multiple-choice". -/
theorem canonical_types_resolve_witness :
    (∃ m', NewAssignmentTypeManager.ResolveType "multiple-choice" = .ok m') ∧
    ∃ t s, NewAssignmentTypeManager.ConvertToLMSFormat "multiple-choice" = .ok (t, s) ∧
      t ≠ "" :=
  canonical_types_resolve
    ⟨"multiple-choice", "multiple-choice", "", "Multiple choice questions", false⟩
    (by decide)

/-- Dynamically-typed JSON-like payloads (the Go `interface` questions and
code-submission-config fields).  Object fields are kept in a list; Go's
json.Marshal emits map keys in sorted order, so a value decoded from a
document is modelled with its fields already in that canonical order. -/
inductive Json where
  | null : Json
  | jbool : Bool → Json
  | jnum : Int → Json
  | jstr : String → Json
  | jarr : List Json → Json
  | jobj : List (String × Json) → Json

/-- Wall-clock instants (Go time.Time), modelled by their UTC calendar
fields, which is all the embedded code observes of them. -/
structure GoTime where
  year : Nat
  month : Nat
  day : Nat
  hour : Nat
  minute : Nat
  second : Nat
deriving DecidableEq

/-- Zero-padded two-digit decimal rendering. -/
def pad2 (n : Nat) : String :=
  if n < 10 then "0" ++ toString n else toString n

/-- Zero-padded four-digit decimal rendering. -/
def pad4 (n : Nat) : String :=
  if n < 10 then "000" ++ toString n
  else if n < 100 then "00" ++ toString n
  else if n < 1000 then "0" ++ toString n
  else toString n

/-- Model of Go Format(time.RFC3339) for a UTC instant. -/
def GoTime.formatRFC3339 (t : GoTime) : String :=
  pad4 t.year ++ "-" ++ pad2 t.month ++ "-" ++ pad2 t.day ++ "T" ++
    pad2 t.hour ++ ":" ++ pad2 t.minute ++ ":" ++ pad2 t.second ++ "Z"

/-- PackageMetadata contains package-level information (types.go). -/
structure PackageMetadata where
  ID : String
  Version : String
  Created : GoTime
  Modified : GoTime
  Author : String
  Email : String
  License : String
  Tags : List String
  Description : String
  Language : String
  SourceHash : String
  Custom : List (String × String)

/-- Assignment represents the core assignment data (types.go).  The two
`interface` fields are Option Json (none = Go nil); pointer fields are
Option values. -/
structure Assignment where
  Title : String
  Description : String
  Type' : String
  Subtype : String
  Category : String
  Difficulty : String
  Questions : Option Json
  Instructions : String
  Criteria : String
  CodeSubmissionConfig : Option Json
  Points : Int
  TimeLimit : Option Int
  MaxAttempts : Option Int
  AutoGrade : Bool
  ShowFeedback : Bool
  ShuffleQuestions : Bool
  AllowReview : Bool
  DueDate : Option GoTime
  AvailableFrom : Option GoTime
  AvailableTo : Option GoTime
  Quarter : String
  TrackAttempts : Bool
  TrackConfidence : Bool
  TrackTimeSpent : Bool
  LearningObjectives : List String
  Prerequisites : List String
  RecommendedCourses : List String
  Tags : List String
  Published : Bool

/-- Resource represents a learning resource attached to an assignment. -/
structure Resource where
  ID : String
  Title : String
  Description : String
  Type' : String
  LocalPath : String
  URL : String
  FileSize : Int
  MimeType : String
  Checksum : String
  Tags : List String
  Order : Int
  IsPublic : Bool
  Metadata : List (String × String)

/-- SoftwareRequirement represents required software/tools. -/
structure SoftwareRequirement where
  Name : String
  Version : String
  Description : String
  Required : Bool

/-- Dependencies represents assignment dependencies and relationships. -/
structure Dependencies where
  Subjects : List String
  Prerequisites : List String
  RecommendedCourses : List String
  RequiredResources : List String
  SoftwareRequirements : List SoftwareRequirement

/-- ValidationInfo contains validation results and metadata (types.go);
Score is the Go int quality score. -/
structure ValidationInfo where
  IsValid : Bool
  ValidatedAt : GoTime
  ValidatorVersion : String
  Errors : List String
  Warnings : List String
  Score : Int

/-- AssignmentPackage represents a complete portable assignment. -/
structure AssignmentPackage where
  Metadata : PackageMetadata
  Assignment : Assignment
  Resources : List Resource
  Dependencies : Dependencies
  Validation : ValidationInfo

/-- First check of validateAssignmentPackage (commands.go): missing title
is a blocking error, deducting 20. -/
def checkTitle (a : Assignment) (v : ValidationInfo) : ValidationInfo :=
  if a.Title = "" then
    { v with Errors := v.Errors ++ ["Assignment title is required"],
             IsValid := false, Score := v.Score - 20 }
  else v

/-- Second check: missing type is a blocking error, deducting 20. -/
def checkType (a : Assignment) (v : ValidationInfo) : ValidationInfo :=
  if a.Type' = "" then
    { v with Errors := v.Errors ++ ["Assignment type is required"],
             IsValid := false, Score := v.Score - 20 }
  else v

/-- Type-specific check (the Go switch): multiple-choice and matching
assignments with a nil questions payload get a blocking error, deducting
30. -/
def checkQuestions (a : Assignment) (v : ValidationInfo) : ValidationInfo :=
  if a.Type' = "multiple-choice" then
    if a.Questions.isNone then
      { v with Errors := v.Errors ++ ["Multiple choice questions are required"],
               IsValid := false, Score := v.Score - 30 }
    else v
  else if a.Type' = "matching" then
    if a.Questions.isNone then
      { v with Errors := v.Errors ++ ["Matching items are required"],
               IsValid := false, Score := v.Score - 30 }
    else v
  else v

/-- Warning check: missing description deducts 5. -/
def checkDescription (a : Assignment) (v : ValidationInfo) : ValidationInfo :=
  if a.Description = "" then
    { v with Warnings := v.Warnings ++ ["Assignment description is recommended"],
             Score := v.Score - 5 }
  else v

/-- Warning check: non-positive points deducts 10. -/
def checkPoints (a : Assignment) (v : ValidationInfo) : ValidationInfo :=
  if a.Points ≤ 0 then
    { v with Warnings := v.Warnings ++ ["Assignment should have positive points"],
             Score := v.Score - 10 }
  else v

/-- validateAssignmentPackage (commands.go lines 631-680): starts from a
valid result with score 100 and applies the five checks in source order.
The Go time.Now() call is the explicit `now` parameter. -/
def validateAssignmentPackage (now : GoTime) (pkg : AssignmentPackage) :
    ValidationInfo :=
  checkPoints pkg.Assignment (checkDescription pkg.Assignment
    (checkQuestions pkg.Assignment (checkType pkg.Assignment
      (checkTitle pkg.Assignment
        { IsValid := true, ValidatedAt := now, ValidatorVersion := "1.0.0",
          Errors := [], Warnings := [], Score := 100 }))))

@[simp] theorem checkTitle_IsValid (a : Assignment) (v : ValidationInfo) :
    (checkTitle a v).IsValid = if a.Title = "" then false else v.IsValid := by
  unfold checkTitle; split <;> rfl

@[simp] theorem checkTitle_Errors (a : Assignment) (v : ValidationInfo) :
    (checkTitle a v).Errors =
      if a.Title = "" then v.Errors ++ ["Assignment title is required"]
      else v.Errors := by
  unfold checkTitle; split <;> rfl

@[simp] theorem checkTitle_Score (a : Assignment) (v : ValidationInfo) :
    (checkTitle a v).Score = if a.Title = "" then v.Score - 20 else v.Score := by
  unfold checkTitle; split <;> rfl

@[simp] theorem checkType_IsValid (a : Assignment) (v : ValidationInfo) :
    (checkType a v).IsValid = if a.Type' = "" then false else v.IsValid := by
  unfold checkType; split <;> rfl

@[simp] theorem checkType_Errors (a : Assignment) (v : ValidationInfo) :
    (checkType a v).Errors =
      if a.Type' = "" then v.Errors ++ ["Assignment type is required"]
      else v.Errors := by
  unfold checkType; split <;> rfl

@[simp] theorem checkType_Score (a : Assignment) (v : ValidationInfo) :
    (checkType a v).Score = if a.Type' = "" then v.Score - 20 else v.Score := by
  unfold checkType; split <;> rfl

@[simp] theorem checkQuestions_IsValid (a : Assignment) (v : ValidationInfo) :
    (checkQuestions a v).IsValid =
      if (a.Type' = "multiple-choice" ∨ a.Type' = "matching") ∧ a.Questions.isNone
      then false else v.IsValid := by
  unfold checkQuestions
  split_ifs <;> simp_all

@[simp] theorem checkQuestions_Errors (a : Assignment) (v : ValidationInfo) :
    (checkQuestions a v).Errors =
      if a.Type' = "multiple-choice" ∧ a.Questions.isNone then
        v.Errors ++ ["Multiple choice questions are required"]
      else if a.Type' = "matching" ∧ a.Questions.isNone then
        v.Errors ++ ["Matching items are required"]
      else v.Errors := by
  unfold checkQuestions
  split_ifs <;> simp_all

@[simp] theorem checkQuestions_Score (a : Assignment) (v : ValidationInfo) :
    (checkQuestions a v).Score =
      if (a.Type' = "multiple-choice" ∨ a.Type' = "matching") ∧ a.Questions.isNone
      then v.Score - 30 else v.Score := by
  unfold checkQuestions
  split_ifs <;> simp_all

@[simp] theorem checkDescription_IsValid (a : Assignment) (v : ValidationInfo) :
    (checkDescription a v).IsValid = v.IsValid := by
  unfold checkDescription; split <;> rfl

@[simp] theorem checkDescription_Errors (a : Assignment) (v : ValidationInfo) :
    (checkDescription a v).Errors = v.Errors := by
  unfold checkDescription; split <;> rfl

@[simp] theorem checkDescription_Score (a : Assignment) (v : ValidationInfo) :
    (checkDescription a v).Score =
      if a.Description = "" then v.Score - 5 else v.Score := by
  unfold checkDescription; split <;> rfl

@[simp] theorem checkPoints_IsValid (a : Assignment) (v : ValidationInfo) :
    (checkPoints a v).IsValid = v.IsValid := by
  unfold checkPoints; split <;> rfl

@[simp] theorem checkPoints_Errors (a : Assignment) (v : ValidationInfo) :
    (checkPoints a v).Errors = v.Errors := by
  unfold checkPoints; split <;> rfl

@[simp] theorem checkPoints_Score (a : Assignment) (v : ValidationInfo) :
    (checkPoints a v).Score =
      if a.Points ≤ 0 then v.Score - 10 else v.Score := by
  unfold checkPoints; split <;> rfl

/-- Score bounds shared by several results: every validation score lies
between 35 and 100, because the missing-type and missing-questions
deductions are mutually exclusive (the questions deduction requires a
non-empty type). -/
theorem validate_score_bounds (now : GoTime) (pkg : AssignmentPackage) :
    35 ≤ (validateAssignmentPackage now pkg).Score ∧
      (validateAssignmentPackage now pkg).Score ≤ 100 := by
  unfold validateAssignmentPackage
  simp only [checkPoints_Score, checkDescription_Score, checkQuestions_Score,
    checkType_Score, checkTitle_Score]
  split_ifs <;> simp_all

/-- Claim C3: a package with empty title and empty type validates to
IsValid = false, Score ≤ 60 and exactly two blocking errors; and in
general IsValid is false exactly when the error list is non-empty. -/
theorem validate_empty_title_and_type (now : GoTime) (pkg : AssignmentPackage) :
    ((validateAssignmentPackage now pkg).IsValid = false ↔
      (validateAssignmentPackage now pkg).Errors ≠ []) ∧
    (pkg.Assignment.Title = "" → pkg.Assignment.Type' = "" →
      (validateAssignmentPackage now pkg).IsValid = false ∧
      (validateAssignmentPackage now pkg).Score ≤ 60 ∧
      (validateAssignmentPackage now pkg).Errors.length = 2) := by
  unfold validateAssignmentPackage
  simp only [checkPoints_IsValid, checkPoints_Errors, checkPoints_Score,
    checkDescription_IsValid, checkDescription_Errors, checkDescription_Score,
    checkQuestions_IsValid, checkQuestions_Errors, checkQuestions_Score,
    checkType_IsValid, checkType_Errors, checkType_Score,
    checkTitle_IsValid, checkTitle_Errors, checkTitle_Score]
  split_ifs <;> simp_all

/-- Witness for validate_empty_title_and_type at a concrete empty
package. -/
theorem validate_empty_title_and_type_witness :
    (let now : GoTime := ⟨2024, 1, 1, 0, 0, 0⟩
     let pkg : AssignmentPackage :=
       { Metadata := ⟨"", "", ⟨2024, 1, 1, 0, 0, 0⟩, ⟨2024, 1, 1, 0, 0, 0⟩,
           "", "", "", [], "", "", "", []⟩,
         Assignment := ⟨"", "", "", "", "", "", none, "", "", none, 0, none,
           none, false, false, false, false, none, none, none, "", false,
           false, false, [], [], [], [], false⟩,
         Resources := [], Dependencies := ⟨[], [], [], [], []⟩,
         Validation := ⟨true, ⟨2024, 1, 1, 0, 0, 0⟩, "", [], [], 0⟩ }
     ((validateAssignmentPackage now pkg).IsValid = false ↔
       (validateAssignmentPackage now pkg).Errors ≠ []) ∧
     ((validateAssignmentPackage now pkg).IsValid = false ∧
       (validateAssignmentPackage now pkg).Score ≤ 60 ∧
       (validateAssignmentPackage now pkg).Errors.length = 2)) := by
  refine ⟨(validate_empty_title_and_type _ _).1, ?_⟩
  exact (validate_empty_title_and_type _ _).2 rfl rfl

/-- Claim C4 (amended): the validator applies no clamping, yet its score
can never go negative: the missing-type deduction (20) and the
missing-questions deduction (30) are mutually exclusive, so the total
deduction is at most 65 and every score is at least 35. -/
theorem validate_score_never_negative (now : GoTime) (pkg : AssignmentPackage) :
    35 ≤ (validateAssignmentPackage now pkg).Score := by
  exact (validate_score_bounds now pkg).1

/-- Counterexample to claim C4 as stated: no AssignmentPackage makes the
validator return a negative score. -/
theorem validate_score_not_negative_anywhere :
    ¬ ∃ now pkg, (validateAssignmentPackage now pkg).Score < 0 := by
  rintro ⟨now, pkg, h⟩
  have := (validate_score_bounds now pkg).1
  omega

/-- Values stored in the wire record sent to the LMS (the Go
map[string]interface values of convertToLMSFormat). -/
inductive WireVal where
  | vStr : String → WireVal
  | vInt : Int → WireVal
  | vBool : Bool → WireVal
  | vStrList : List String → WireVal
  | vJson : Option Json → WireVal
  | vTime : GoTime → WireVal

/-- convertToLMSFormat (sync.go lines 228-294): resolves the portable type
through the global type manager, falling back to the original type and
subtype on resolution failure, and builds the flat wire record.  Optional
time and integer fields are added only when present.  The Go time.Now()
for importedAt is the explicit `now` parameter; the record is the
insertion list of the Go map (every key is assigned exactly once). -/
def convertToLMSFormat (now : GoTime) (pkg : AssignmentPackage) :
    List (String × WireVal) :=
  let assignment := pkg.Assignment
  let typeManager := NewAssignmentTypeManager
  let resolved :=
    match typeManager.ConvertToLMSFormat assignment.Type' with
    | .ok ts => ts
    | .error _ => (assignment.Type', assignment.Subtype)
  let lmsType := resolved.1
  let lmsSubtype := resolved.2
  [("title", .vStr assignment.Title),
   ("description", .vStr assignment.Description),
   ("type", .vStr lmsType),
   ("subtype", .vStr lmsSubtype),
   ("category", .vStr assignment.Category),
   ("difficulty", .vStr assignment.Difficulty),
   ("points", .vInt assignment.Points),
   ("instructions", .vStr assignment.Instructions),
   ("criteria", .vStr assignment.Criteria),
   ("autoGrade", .vBool assignment.AutoGrade),
   ("showFeedback", .vBool assignment.ShowFeedback),
   ("shuffleQuestions", .vBool assignment.ShuffleQuestions),
   ("allowReview", .vBool assignment.AllowReview),
   ("published", .vBool assignment.Published),
   ("quarter", .vStr assignment.Quarter),
   ("trackAttempts", .vBool assignment.TrackAttempts),
   ("trackConfidence", .vBool assignment.TrackConfidence),
   ("trackTimeSpent", .vBool assignment.TrackTimeSpent),
   ("learningObjectives", .vStrList assignment.LearningObjectives),
   ("prerequisites", .vStrList assignment.Prerequisites),
   ("recommendedCourses", .vStrList assignment.RecommendedCourses),
   ("tags", .vStrList assignment.Tags),
   ("questions", .vJson assignment.Questions),
   ("codeSubmissionConfig", .vJson assignment.CodeSubmissionConfig),
   ("templateId", .vStr pkg.Metadata.ID),
   ("version", .vStr pkg.Metadata.Version),
   ("sourceHash", .vStr pkg.Metadata.SourceHash),
   ("importedFrom", .vStr "assignment-toolkit"),
   ("importedAt", .vTime now)] ++
  (match assignment.DueDate with
   | some d => [("dueDate", .vStr d.formatRFC3339)]
   | none => []) ++
  (match assignment.AvailableFrom with
   | some d => [("availableFrom", .vStr d.formatRFC3339)]
   | none => []) ++
  (match assignment.AvailableTo with
   | some d => [("availableTo", .vStr d.formatRFC3339)]
   | none => []) ++
  (match assignment.TimeLimit with
   | some n => [("timeLimit", .vInt n)]
   | none => []) ++
  (match assignment.MaxAttempts with
   | some n => [("maxAttempts", .vInt n)]
   | none => [])

/-- Fixed sample instant used by concrete witnesses. -/
def t0 : GoTime := ⟨2024, 1, 1, 0, 0, 0⟩

/-- Sample package with the given portable type and subtype, used by
concrete witnesses. -/
def samplePackage (ty subty : String) : AssignmentPackage :=
  { Metadata := ⟨"pkg-1", "1.0.0", t0, t0, "author", "", "", [], "", "en",
      "hash", []⟩,
    Assignment := ⟨"Sample title", "Sample description", ty, subty, "", "",
      none, "", "", none, 10, none, none, true, true, false, false, none,
      none, none, "", false, false, false, [], [], [], [], true⟩,
    Resources := [], Dependencies := ⟨[], [], [], [], []⟩,
    Validation := ⟨true, t0, "", [], [], 0⟩ }

/-- Claim C5: when type resolution fails, convertToLMSFormat still
produces a wire record whose "type" entry is the original unresolved type
string and whose "subtype" entry is the package's original Subtype field. -/
theorem convert_unresolved_passes_through (now : GoTime)
    (pkg : AssignmentPackage)
    (h : ∃ e, NewAssignmentTypeManager.ResolveType pkg.Assignment.Type' = .error e) :
    goMapGet (convertToLMSFormat now pkg) "type" =
      some (.vStr pkg.Assignment.Type') ∧
    goMapGet (convertToLMSFormat now pkg) "subtype" =
      some (.vStr pkg.Assignment.Subtype) := by
  obtain ⟨e, he⟩ := h
  unfold convertToLMSFormat
  simp only [AssignmentTypeManager.ConvertToLMSFormat, he]
  cases pkg.Assignment.DueDate <;> cases pkg.Assignment.AvailableFrom <;>
    cases pkg.Assignment.AvailableTo <;> cases pkg.Assignment.TimeLimit <;>
    cases pkg.Assignment.MaxAttempts <;>
    simp [goMapGet, List.find?]

/-- Witness for convert_unresolved_passes_through at a package whose type
"bogus-type" is unknown to the registry. -/
theorem convert_unresolved_passes_through_witness :
    (∃ e, NewAssignmentTypeManager.ResolveType
      (samplePackage "bogus-type" "my-subtype").Assignment.Type' = .error e) ∧
    goMapGet (convertToLMSFormat t0 (samplePackage "bogus-type" "my-subtype")) "type" =
      some (.vStr (samplePackage "bogus-type" "my-subtype").Assignment.Type') ∧
    goMapGet (convertToLMSFormat t0 (samplePackage "bogus-type" "my-subtype")) "subtype" =
      some (.vStr (samplePackage "bogus-type" "my-subtype").Assignment.Subtype) :=
  ⟨⟨"unknown assignment type: bogus-type", rfl⟩,
   convert_unresolved_passes_through t0 (samplePackage "bogus-type" "my-subtype")
     ⟨"unknown assignment type: bogus-type", rfl⟩⟩

/-- Claim C10: when the package type resolves, the wire record's "type"
and "subtype" entries come from the resolved mapping; in particular the
"subtype" entry is the mapping's LMSSubtype and the package's own Subtype
field is ignored. -/
theorem convert_resolved_uses_mapping_subtype (now : GoTime)
    (pkg : AssignmentPackage) (m : TypeMapping)
    (h : NewAssignmentTypeManager.ResolveType pkg.Assignment.Type' = .ok m) :
    goMapGet (convertToLMSFormat now pkg) "type" = some (.vStr m.LMSType) ∧
    goMapGet (convertToLMSFormat now pkg) "subtype" =
      some (.vStr m.LMSSubtype) := by
  unfold convertToLMSFormat
  simp only [AssignmentTypeManager.ConvertToLMSFormat, h]
  cases pkg.Assignment.DueDate <;> cases pkg.Assignment.AvailableFrom <;>
    cases pkg.Assignment.AvailableTo <;> cases pkg.Assignment.TimeLimit <;>
    cases pkg.Assignment.MaxAttempts <;>
    simp [goMapGet, List.find?]

/-- Witness for convert_resolved_uses_mapping_subtype: a package declaring
Subtype "custom-subtype" for the resolvable non-grouped type "matching"
is sent with the mapping's empty subtype. -/
theorem convert_resolved_uses_mapping_subtype_witness :
    NewAssignmentTypeManager.ResolveType
      (samplePackage "matching" "custom-subtype").Assignment.Type' =
      .ok ⟨"matching", "matching", "", "Match items from two lists", false⟩ ∧
    goMapGet (convertToLMSFormat t0 (samplePackage "matching" "custom-subtype")) "type" =
      some (.vStr "matching") ∧
    goMapGet (convertToLMSFormat t0 (samplePackage "matching" "custom-subtype")) "subtype" =
      some (.vStr "") :=
  ⟨rfl,
   convert_resolved_uses_mapping_subtype t0 (samplePackage "matching" "custom-subtype")
     ⟨"matching", "matching", "", "Match items from two lists", false⟩ rfl⟩

/-- ImportResult represents the result of importing one assignment to the
LMS (types.go). -/
structure ImportResult where
  AssignmentID : String
  ResourceIDs : List String
  Conflicts : List String
  Status : String
  Message : String
  Metadata : List (String × String)
deriving DecidableEq

/-- BatchImportResult represents results from batch import (types.go);
the Go int counters are Int. -/
structure BatchImportResult where
  BatchID : String
  TotalCount : Int
  SuccessCount : Int
  FailureCount : Int
  Results : List ImportResult
  StartedAt : GoTime
  CompletedAt : GoTime

/-- Boolean success test for an Except value. -/
def exceptIsOk {ε α : Type} : Except ε α → Bool
  | .ok _ => true
  | .error _ => false

/-- Loop body of BatchSyncAssignments (sync.go lines 117-129): a failed
item is recorded with status "failed" and the error message; a successful
item appends its ImportResult; counters are updated accordingly. -/
def syncStep (syncOne : AssignmentPackage → Except String ImportResult)
    (res : BatchImportResult) (pkg : AssignmentPackage) : BatchImportResult :=
  match syncOne pkg with
  | .error e =>
    { res with FailureCount := res.FailureCount + 1,
               Results := res.Results ++ [⟨"", [], [], "failed", e, []⟩] }
  | .ok r =>
    { res with SuccessCount := res.SuccessCount + 1,
               Results := res.Results ++ [r] }

/-- BatchSyncAssignments (sync.go lines 106-132): sequential
continue-on-error loop over the packages.  The network exchange performed
by SyncAssignment is the explicit `syncOne` parameter; the fresh UUID and
the two time.Now() readings are the explicit batchID, startedAt and
completedAt parameters. -/
def BatchSyncAssignments (syncOne : AssignmentPackage → Except String ImportResult)
    (batchID : String) (startedAt completedAt : GoTime)
    (packages : List AssignmentPackage) : BatchImportResult :=
  let init : BatchImportResult :=
    { BatchID := batchID, TotalCount := packages.length, SuccessCount := 0,
      FailureCount := 0, Results := [], StartedAt := startedAt,
      CompletedAt := ⟨0, 0, 0, 0, 0, 0⟩ }
  let final := packages.foldl (syncStep syncOne) init
  { final with CompletedAt := completedAt }

/-- ImportResult recorded for one package by the batch loop. -/
def syncItemResult (syncOne : AssignmentPackage → Except String ImportResult)
    (pkg : AssignmentPackage) : ImportResult :=
  match syncOne pkg with
  | .error e => ⟨"", [], [], "failed", e, []⟩
  | .ok r => r

/-- Results of the batch fold accumulate in input order. -/
theorem batch_foldl_Results (syncOne : AssignmentPackage → Except String ImportResult)
    (packages : List AssignmentPackage) (res : BatchImportResult) :
    (packages.foldl (syncStep syncOne) res).Results =
      res.Results ++ packages.map (syncItemResult syncOne) := by
  induction packages generalizing res with
  | nil => simp
  | cons p ps ih =>
    simp only [List.foldl_cons, List.map_cons]
    rw [ih]
    cases hs : syncOne p <;> simp [syncStep, syncItemResult, hs]

/-- SuccessCount of the batch fold counts the successful items. -/
theorem batch_foldl_Success (syncOne : AssignmentPackage → Except String ImportResult)
    (packages : List AssignmentPackage) (res : BatchImportResult) :
    (packages.foldl (syncStep syncOne) res).SuccessCount =
      res.SuccessCount +
        ((packages.filter (fun p => exceptIsOk (syncOne p))).length : Int) := by
  induction packages generalizing res with
  | nil => simp
  | cons p ps ih =>
    simp only [List.foldl_cons, List.filter_cons]
    rw [ih]
    cases hs : syncOne p with
    | error e => simp [syncStep, exceptIsOk, hs]
    | ok r =>
      simp [syncStep, exceptIsOk, hs]
      ring

/-- FailureCount of the batch fold counts the failed items. -/
theorem batch_foldl_Failure (syncOne : AssignmentPackage → Except String ImportResult)
    (packages : List AssignmentPackage) (res : BatchImportResult) :
    (packages.foldl (syncStep syncOne) res).FailureCount =
      res.FailureCount +
        ((packages.filter (fun p => ! exceptIsOk (syncOne p))).length : Int) := by
  induction packages generalizing res with
  | nil => simp
  | cons p ps ih =>
    simp only [List.foldl_cons, List.filter_cons]
    rw [ih]
    cases hs : syncOne p with
    | error e =>
      simp [syncStep, exceptIsOk, hs]
      ring
    | ok r => simp [syncStep, exceptIsOk, hs]

/-- TotalCount is unchanged by the batch fold. -/
theorem batch_foldl_Total (syncOne : AssignmentPackage → Except String ImportResult)
    (packages : List AssignmentPackage) (res : BatchImportResult) :
    (packages.foldl (syncStep syncOne) res).TotalCount = res.TotalCount := by
  induction packages generalizing res with
  | nil => simp
  | cons p ps ih =>
    simp only [List.foldl_cons]
    rw [ih]
    cases hs : syncOne p <;> simp [syncStep, hs]

/-- Counting lemma: the successes and failures of a list partition it. -/
theorem filter_ok_add_filter_fail {α : Type} (f : α → Bool) (l : List α) :
    (l.filter f).length + (l.filter (fun a => ! f a)).length = l.length := by
  induction l with
  | nil => simp
  | cons a l ih =>
    by_cases h : f a <;> simp [List.filter_cons, h] <;> omega

/-- Claim C8: the batch result has one ImportResult per input package in
input order, TotalCount equals the number of packages, SuccessCount plus
FailureCount equals TotalCount, and a failing item is recorded with
status "failed" without stopping the loop; in particular three packages
whose middle item fails yield SuccessCount 2 and FailureCount 1. -/
theorem batch_sync_results (syncOne : AssignmentPackage → Except String ImportResult)
    (batchID : String) (startedAt completedAt : GoTime)
    (packages : List AssignmentPackage) :
    (BatchSyncAssignments syncOne batchID startedAt completedAt packages).Results =
      packages.map (syncItemResult syncOne) ∧
    (BatchSyncAssignments syncOne batchID startedAt completedAt packages).TotalCount =
      packages.length ∧
    (BatchSyncAssignments syncOne batchID startedAt completedAt packages).SuccessCount +
      (BatchSyncAssignments syncOne batchID startedAt completedAt packages).FailureCount =
      (BatchSyncAssignments syncOne batchID startedAt completedAt packages).TotalCount ∧
    (∀ p1 p2 p3 r1 r3 e2, syncOne p1 = .ok r1 → syncOne p2 = .error e2 →
      syncOne p3 = .ok r3 →
      (BatchSyncAssignments syncOne batchID startedAt completedAt [p1, p2, p3]).SuccessCount = 2 ∧
      (BatchSyncAssignments syncOne batchID startedAt completedAt [p1, p2, p3]).FailureCount = 1 ∧
      (BatchSyncAssignments syncOne batchID startedAt completedAt [p1, p2, p3]).Results =
        [r1, ⟨"", [], [], "failed", e2, []⟩, r3]) := by
  refine ⟨?_, ?_, ?_, ?_⟩
  · unfold BatchSyncAssignments
    simp [batch_foldl_Results]
  · unfold BatchSyncAssignments
    simp [batch_foldl_Total]
  · have hcount := filter_ok_add_filter_fail (fun p => exceptIsOk (syncOne p)) packages
    unfold BatchSyncAssignments
    simp [batch_foldl_Success, batch_foldl_Failure, batch_foldl_Total]
    omega
  · intro p1 p2 p3 r1 r3 e2 h1 h2 h3
    unfold BatchSyncAssignments
    simp [syncStep, h1, h2, h3]

/-- Concrete network oracle for the batch witness: packages titled
"fail-me" fail the network call, all others succeed. -/
def syncOracle : AssignmentPackage → Except String ImportResult :=
  fun p =>
    if p.Assignment.Title = "fail-me" then
      .error "API error (500): network down"
    else .ok ⟨p.Metadata.ID, [], [], "success", "", []⟩

/-- Concrete package whose network call fails. -/
def failingPackage : AssignmentPackage :=
  let base := samplePackage "matching" ""
  { base with Assignment := { base.Assignment with Title := "fail-me" } }

/-- Witness for batch_sync_results: three concrete packages whose middle
item fails yield SuccessCount 2, FailureCount 1 and per-item results in
input order. -/
theorem batch_sync_results_witness :
    (BatchSyncAssignments syncOracle "batch-1" t0 t0
      [samplePackage "matching" "", failingPackage, samplePackage "essay" ""]).SuccessCount = 2 ∧
    (BatchSyncAssignments syncOracle "batch-1" t0 t0
      [samplePackage "matching" "", failingPackage, samplePackage "essay" ""]).FailureCount = 1 ∧
    (BatchSyncAssignments syncOracle "batch-1" t0 t0
      [samplePackage "matching" "", failingPackage, samplePackage "essay" ""]).Results =
      [⟨"pkg-1", [], [], "success", "", []⟩,
       ⟨"", [], [], "failed", "API error (500): network down", []⟩,
       ⟨"pkg-1", [], [], "success", "", []⟩] :=
  (batch_sync_results syncOracle "batch-1" t0 t0
      [samplePackage "matching" "", failingPackage, samplePackage "essay" ""]).2.2.2
    (samplePackage "matching" "") failingPackage (samplePackage "essay" "")
    ⟨"pkg-1", [], [], "success", "", []⟩ ⟨"pkg-1", [], [], "success", "", []⟩
    "API error (500): network down" rfl rfl rfl

/-- Deduplication loop of GetSuggestedTypes (type-mapping.go lines
181-189): keep the first occurrence of each suggestion, tracked by the
`seen` set. -/
def dedupFirstAux (seen : List String) : List String → List String
  | [] => []
  | s :: rest =>
    if s ∈ seen then dedupFirstAux seen rest
    else s :: dedupFirstAux (s :: seen) rest

/-- GetSuggestedTypes (type-mapping.go lines 163-192): lowercase the
input, collect canonical keys matching by bidirectional substring
containment, then matching alias keys resolved to their targets, and
deduplicate keeping the first occurrences.  The function ranges over two
Go maps, whose iteration order is unspecified; the orders are the
mappingKeys and aliasPairs parameters (any permutation of the registry's
entries). -/
def GetSuggestedTypes (mappingKeys : List String)
    (aliasPairs : List (String × String)) (input : String) : List String :=
  dedupFirstAux []
    ((mappingKeys.filter
        (fun pt => goContains pt (goToLower input) || goContains (goToLower input) pt)) ++
     (aliasPairs.filter
        (fun p => goContains p.1 (goToLower input) || goContains (goToLower input) p.1)).map
       Prod.snd)

/-- The canonical keys of the default registry, in insertion order. -/
def defaultMappingKeys : List String :=
  directMappings.map (fun m => m.PortableType)

/-- Membership in the deduplicated list. -/
theorem mem_dedupFirstAux (l : List String) :
    ∀ (seen : List String) (a : String),
      a ∈ dedupFirstAux seen l ↔ a ∈ l ∧ a ∉ seen := by
  induction l with
  | nil => simp [dedupFirstAux]
  | cons s rest ih =>
    intro seen a
    by_cases hs : s ∈ seen
    · rw [dedupFirstAux, if_pos hs, ih]
      constructor
      · rintro ⟨ha, hna⟩
        exact ⟨List.mem_cons_of_mem _ ha, hna⟩
      · rintro ⟨ha, hna⟩
        rcases List.mem_cons.mp ha with rfl | ha
        · exact absurd hs hna
        · exact ⟨ha, hna⟩
    · rw [dedupFirstAux, if_neg hs]
      constructor
      · intro hmem
        rcases List.mem_cons.mp hmem with rfl | hmem
        · exact ⟨List.mem_cons_self _ _, hs⟩
        · obtain ⟨ha, hna⟩ := (ih (s :: seen) a).mp hmem
          exact ⟨List.mem_cons_of_mem _ ha,
            fun h => hna (List.mem_cons_of_mem _ h)⟩
      · rintro ⟨ha, hna⟩
        rcases List.mem_cons.mp ha with rfl | ha
        · exact List.mem_cons_self _ _
        · by_cases hsa : a = s
          · exact hsa ▸ List.mem_cons_self _ _
          · refine List.mem_cons_of_mem _ ((ih (s :: seen) a).mpr ⟨ha, ?_⟩)
            intro h
            rcases List.mem_cons.mp h with h | h
            · exact hsa h
            · exact hna h

/-- The deduplicated list has no duplicates. -/
theorem nodup_dedupFirstAux (l : List String) :
    ∀ seen : List String, (dedupFirstAux seen l).Nodup := by
  induction l with
  | nil => intro seen; simp [dedupFirstAux]
  | cons s rest ih =>
    intro seen
    by_cases hs : s ∈ seen
    · simpa [dedupFirstAux, if_pos hs] using ih seen
    · rw [dedupFirstAux, if_neg hs]
      refine List.nodup_cons.mpr ⟨fun hmem => ?_, ih (s :: seen)⟩
      exact ((mem_dedupFirstAux rest (s :: seen) s).mp hmem).2
        (List.mem_cons_self s seen)

/-- Deduplication of a list starting from an empty seen set is empty only
for the empty list. -/
theorem dedupFirstAux_nil_iff (l : List String) :
    dedupFirstAux [] l = [] ↔ l = [] := by
  cases l with
  | nil => simp [dedupFirstAux]
  | cons s rest => simp [dedupFirstAux]

/-- Claim C7 (amended): for any iteration order of the registry's two
maps, GetSuggestedTypes "drag" returns exactly the five drag-drop-*
portable types with no duplicates (the sequence order follows the map
iteration order, which Go does not keep stable across calls); and for
every input, GetSuggestedTypes is total and returns the empty sequence
exactly when no canonical key and no alias key matches the lowercased
input by bidirectional substring containment. -/
theorem suggested_types_drag (mk : List String)
    (ap : List (String × String)) (hmk : mk.Perm defaultMappingKeys)
    (hap : ap.Perm defaultAliases) :
    ((GetSuggestedTypes mk ap "drag").Nodup ∧
     (GetSuggestedTypes mk ap "drag").Perm
       ["drag-drop-ordering", "drag-drop-categorization",
        "drag-drop-fill-blank", "drag-drop-labeling",
        "drag-drop-image-caption"]) ∧
    (∀ input, GetSuggestedTypes mk ap input = [] ↔
      ((∀ k ∈ mk, ¬(goContains k (goToLower input) ∨ goContains (goToLower input) k)) ∧
       (∀ p ∈ ap, ¬(goContains p.1 (goToLower input) ∨ goContains (goToLower input) p.1)))) := by
  constructor
  · unfold GetSuggestedTypes
    refine ⟨nodup_dedupFirstAux _ [], ?_⟩
    have hfilter :
        (mk.filter
          (fun pt => goContains pt (goToLower "drag") || goContains (goToLower "drag") pt)).Perm
          ["drag-drop-ordering", "drag-drop-categorization",
           "drag-drop-fill-blank", "drag-drop-labeling",
           "drag-drop-image-caption"] :=
      (hmk.filter _).trans (by decide)
    have hafilter :
        ap.filter
          (fun p => goContains p.1 (goToLower "drag") || goContains (goToLower "drag") p.1) =
          [("drag-drop", "drag-drop-ordering")] := by
      have h := hap.filter
        (fun p => goContains p.1 (goToLower "drag") || goContains (goToLower "drag") p.1)
      have he : defaultAliases.filter
          (fun p => goContains p.1 (goToLower "drag") || goContains (goToLower "drag") p.1) =
          [("drag-drop", "drag-drop-ordering")] := by decide
      rw [he] at h
      exact List.perm_singleton.mp h
    rw [hafilter]
    rw [List.perm_ext_iff_of_nodup (nodup_dedupFirstAux _ []) (by decide)]
    intro a
    rw [mem_dedupFirstAux]
    simp only [List.not_mem_nil, not_false_iff, and_true, List.mem_append,
      List.map_cons, List.map_nil, List.mem_singleton]
    constructor
    · rintro (ha | ha)
      · exact hfilter.mem_iff.mp ha
      · subst ha; decide
    · intro ha
      exact Or.inl (hfilter.mem_iff.mpr ha)
  · intro input
    unfold GetSuggestedTypes
    rw [dedupFirstAux_nil_iff]
    simp only [List.append_eq_nil, List.map_eq_nil_iff, List.filter_eq_nil_iff]
    constructor
    · rintro ⟨h1, h2⟩
      exact ⟨fun k hk => by simpa using h1 k hk,
             fun p hp => by simpa using h2 p hp⟩
    · rintro ⟨h1, h2⟩
      exact ⟨fun k hk => by simpa using h1 k hk,
             fun p hp => by simpa using h2 p hp⟩

/-- Witness for suggested_types_drag at the insertion iteration order. -/
theorem suggested_types_drag_witness :
    ((GetSuggestedTypes defaultMappingKeys defaultAliases "drag").Nodup ∧
     (GetSuggestedTypes defaultMappingKeys defaultAliases "drag").Perm
       ["drag-drop-ordering", "drag-drop-categorization",
        "drag-drop-fill-blank", "drag-drop-labeling",
        "drag-drop-image-caption"]) ∧
    (∀ input, GetSuggestedTypes defaultMappingKeys defaultAliases input = [] ↔
      ((∀ k ∈ defaultMappingKeys,
          ¬(goContains k (goToLower input) ∨ goContains (goToLower input) k)) ∧
       (∀ p ∈ defaultAliases,
          ¬(goContains p.1 (goToLower input) ∨ goContains (goToLower input) p.1)))) :=
  suggested_types_drag defaultMappingKeys defaultAliases (List.Perm.refl _)
    (List.Perm.refl _)

/-- Counterexample to claim C7 as stated: two legitimate iteration orders
of the canonical-key map (Go randomizes map iteration) produce the five
drag suggestions in different sequence orders, so the output order is not
stable across calls. -/
theorem suggested_types_order_unstable :
    defaultMappingKeys.reverse.Perm defaultMappingKeys ∧
    GetSuggestedTypes defaultMappingKeys defaultAliases "drag" ≠
      GetSuggestedTypes defaultMappingKeys.reverse defaultAliases "drag" := by
  constructor
  · exact List.reverse_perm _
  · decide

/-- Reduction of an unbounded Nat to a 32-bit word. -/
def w32 (n : Nat) : Nat := n % 4294967296

/-- 32-bit right rotation. -/
def rotr32 (x n : Nat) : Nat := w32 ((x >>> n) ||| (x <<< (32 - n)))

/-- SHA-256 big sigma-0. -/
def bigSigma0 (x : Nat) : Nat := rotr32 x 2 ^^^ rotr32 x 13 ^^^ rotr32 x 22

/-- SHA-256 big sigma-1. -/
def bigSigma1 (x : Nat) : Nat := rotr32 x 6 ^^^ rotr32 x 11 ^^^ rotr32 x 25

/-- SHA-256 small sigma-0. -/
def smallSigma0 (x : Nat) : Nat := rotr32 x 7 ^^^ rotr32 x 18 ^^^ (x >>> 3)

/-- SHA-256 small sigma-1. -/
def smallSigma1 (x : Nat) : Nat := rotr32 x 17 ^^^ rotr32 x 19 ^^^ (x >>> 10)

/-- SHA-256 choose function (32-bit complement of x). -/
def chFun (x y z : Nat) : Nat := (x &&& y) ^^^ ((x ^^^ 4294967295) &&& z)

/-- SHA-256 majority function. -/
def majFun (x y z : Nat) : Nat := (x &&& y) ^^^ (x &&& z) ^^^ (y &&& z)

/-- The 64 SHA-256 round constants. -/
def sha256K : List Nat :=
  [1116352408, 1899447441, 3049323471, 3921009573, 961987163,
   1508970993, 2453635748, 2870763221, 3624381080, 310598401,
   607225278, 1426881987, 1925078388, 2162078206, 2614888103,
   3248222580, 3835390401, 4022224774, 264347078, 604807628,
   770255983, 1249150122, 1555081692, 1996064986, 2554220882,
   2821834349, 2952996808, 3210313671, 3336571891, 3584528711,
   113926993, 338241895, 666307205, 773529912, 1294757372,
   1396182291, 1695183700, 1986661051, 2177026350, 2456956037,
   2730485921, 2820302411, 3259730800, 3345764771, 3516065817,
   3600352804, 4094571909, 275423344, 430227734, 506948616,
   659060556, 883997877, 958139571, 1322822218, 1537002063,
   1747873779, 1955562222, 2024104815, 2227730452, 2361852424,
   2428436474, 2756734187, 3204031479, 3329325298]

/-- The eight 32-bit hash words of a SHA-256 state. -/
structure Hash8 where
  a : Nat
  b : Nat
  c : Nat
  d : Nat
  e : Nat
  f : Nat
  g : Nat
  h : Nat

/-- The SHA-256 initial hash value. -/
def sha256Init : Hash8 :=
  ⟨1779033703, 3144134277, 1013904242, 2773480762,
   1359893119, 2600822924, 528734635, 1541459225⟩

/-- SHA-256 message padding of a byte list: append 0x80, zero bytes to 56
mod 64, and the 64-bit big-endian bit length. -/
def sha256Pad (msg : List Nat) : List Nat :=
  let bitLen := msg.length * 8
  let zeros := (120 - (msg.length + 1) % 64) % 64
  msg ++ [0x80] ++ List.replicate zeros 0 ++
    [(bitLen >>> 56) % 256, (bitLen >>> 48) % 256, (bitLen >>> 40) % 256,
     (bitLen >>> 32) % 256, (bitLen >>> 24) % 256, (bitLen >>> 16) % 256,
     (bitLen >>> 8) % 256, bitLen % 256]

/-- Group bytes into big-endian 32-bit words. -/
def bytesToWords : List Nat → List Nat
  | b0 :: b1 :: b2 :: b3 :: rest =>
    ((b0 <<< 24) ||| (b1 <<< 16) ||| (b2 <<< 8) ||| b3) :: bytesToWords rest
  | _ => []

/-- Split a word list into 16-word chunks. -/
def chunks16 : List Nat → List (List Nat)
  | [] => []
  | w :: ws => (w :: ws).take 16 :: chunks16 ((w :: ws).drop 16)
termination_by ws => ws.length
decreasing_by
  simp only [List.drop_succ_cons, List.length_cons, List.length_drop]
  omega

/-- Message-schedule extension loop: append `fuel` further words. -/
def extendLoop : Nat → List Nat → List Nat
  | 0, w => w
  | n + 1, w =>
    extendLoop n (w ++ [w32 (smallSigma1 (w.getD (w.length - 2) 0) +
      w.getD (w.length - 7) 0 + smallSigma0 (w.getD (w.length - 15) 0) +
      w.getD (w.length - 16) 0)])

/-- The 64-word message schedule of one 16-word chunk. -/
def schedule (chunk : List Nat) : List Nat := extendLoop 48 chunk

/-- One SHA-256 compression round; wk is the (schedule word, round
constant) pair. -/
def compressRound (st : Hash8) (wk : Nat × Nat) : Hash8 :=
  let t1 := w32 (st.h + bigSigma1 st.e + chFun st.e st.f st.g + wk.2 + wk.1)
  let t2 := w32 (bigSigma0 st.a + majFun st.a st.b st.c)
  ⟨w32 (t1 + t2), st.a, st.b, st.c, w32 (st.d + t1), st.e, st.f, st.g⟩

/-- Compression of one 16-word chunk into the running hash state. -/
def compressChunk (h0 : Hash8) (chunk : List Nat) : Hash8 :=
  let st := ((schedule chunk).zip sha256K).foldl compressRound h0
  ⟨w32 (h0.a + st.a), w32 (h0.b + st.b), w32 (h0.c + st.c), w32 (h0.d + st.d),
   w32 (h0.e + st.e), w32 (h0.f + st.f), w32 (h0.g + st.g), w32 (h0.h + st.h)⟩

/-- SHA-256 of a byte list as eight 32-bit words. -/
def sha256Words (msg : List Nat) : Hash8 :=
  (chunks16 (bytesToWords (sha256Pad msg))).foldl compressChunk sha256Init

/-- Lowercase hexadecimal digit for a value below 16. -/
def hexChar (n : Nat) : Char :=
  if n < 10 then Char.ofNat (48 + n) else Char.ofNat (87 + n)

/-- Big-endian eight-hex-digit rendering of a 32-bit word. -/
def toHex8 (w : Nat) : List Char :=
  [hexChar (w / 16 ^ 7 % 16), hexChar (w / 16 ^ 6 % 16),
   hexChar (w / 16 ^ 5 % 16), hexChar (w / 16 ^ 4 % 16),
   hexChar (w / 16 ^ 3 % 16), hexChar (w / 16 ^ 2 % 16),
   hexChar (w / 16 % 16), hexChar (w % 16)]

/-- Model of Go fmt %x on a SHA-256 digest: 64 lowercase hex characters. -/
def hexDigest (h : Hash8) : String :=
  String.mk (toHex8 h.a ++ toHex8 h.b ++ toHex8 h.c ++ toHex8 h.d ++
    toHex8 h.e ++ toHex8 h.f ++ toHex8 h.g ++ toHex8 h.h)

/-- UTF-8 encoding of one character. -/
def utf8EncodeChar (c : Char) : List Nat :=
  let n := c.toNat
  if n < 128 then [n]
  else if n < 2048 then [192 + n / 64, 128 + n % 64]
  else if n < 65536 then [224 + n / 4096, 128 + (n / 64) % 64, 128 + n % 64]
  else [240 + n / 262144, 128 + (n / 4096) % 64, 128 + (n / 64) % 64,
        128 + n % 64]

/-- UTF-8 bytes of a string. -/
def utf8Bytes (s : String) : List Nat :=
  (s.data.map utf8EncodeChar).flatten

/-- JSON escaping of one character, following Go encoding/json (which also
escapes <, > and & for HTML safety). -/
def jsonEscapeChar (c : Char) : String :=
  if c = '"' then "\\\""
  else if c = '\\' then "\\\\"
  else if c = '\n' then "\\n"
  else if c = '\r' then "\\r"
  else if c = '\t' then "\\t"
  else if c = '<' then "\\u003c"
  else if c = '>' then "\\u003e"
  else if c = '&' then "\\u0026"
  else if c.toNat < 32 then
    "\\u00" ++ String.mk [hexChar (c.toNat / 16), hexChar (c.toNat % 16)]
  else String.mk [c]

/-- JSON string literal rendering. -/
def jsonQuote (s : String) : String :=
  "\"" ++ String.join (s.data.map jsonEscapeChar) ++ "\""

mutual

/-- Textual rendering of a Json value, as Go encoding/json emits it (no
whitespace, object fields in stored order). -/
def Json.render : Json → String
  | .null => "null"
  | .jbool true => "true"
  | .jbool false => "false"
  | .jnum n => toString n
  | .jstr s => jsonQuote s
  | .jarr elems => "[" ++ Json.renderArr elems ++ "]"
  | .jobj fields => "\x7b" ++ Json.renderObj fields ++ "\x7d"

/-- Comma-joined rendering of array elements. -/
def Json.renderArr : List Json → String
  | [] => ""
  | [x] => Json.render x
  | x :: y :: rest => Json.render x ++ "," ++ Json.renderArr (y :: rest)

/-- Comma-joined rendering of object fields. -/
def Json.renderObj : List (String × Json) → String
  | [] => ""
  | [(k, v)] => jsonQuote k ++ ":" ++ Json.render v
  | (k, v) :: f :: rest =>
    jsonQuote k ++ ":" ++ Json.render v ++ "," ++ Json.renderObj (f :: rest)

end

/-- Go json.Marshal of the Assignment struct (types.go tags): fields in
declaration order, omitempty fields dropped when zero, pointer fields
dropped when nil, time values rendered in RFC3339. -/
def assignmentToJson (a : Assignment) : Json :=
  .jobj
    ([("title", .jstr a.Title)] ++
     (if a.Description = "" then [] else [("description", .jstr a.Description)]) ++
     [("type", .jstr a.Type')] ++
     (if a.Subtype = "" then [] else [("subtype", .jstr a.Subtype)]) ++
     (if a.Category = "" then [] else [("category", .jstr a.Category)]) ++
     (if a.Difficulty = "" then [] else [("difficulty", .jstr a.Difficulty)]) ++
     (match a.Questions with
      | some q => [("questions", q)]
      | none => []) ++
     (if a.Instructions = "" then [] else [("instructions", .jstr a.Instructions)]) ++
     (if a.Criteria = "" then [] else [("criteria", .jstr a.Criteria)]) ++
     (match a.CodeSubmissionConfig with
      | some q => [("code_submission_config", q)]
      | none => []) ++
     [("points", .jnum a.Points)] ++
     (match a.TimeLimit with
      | some n => [("time_limit", .jnum n)]
      | none => []) ++
     (match a.MaxAttempts with
      | some n => [("max_attempts", .jnum n)]
      | none => []) ++
     [("auto_grade", .jbool a.AutoGrade),
      ("show_feedback", .jbool a.ShowFeedback),
      ("shuffle_questions", .jbool a.ShuffleQuestions),
      ("allow_review", .jbool a.AllowReview)] ++
     (match a.DueDate with
      | some t => [("due_date", .jstr t.formatRFC3339)]
      | none => []) ++
     (match a.AvailableFrom with
      | some t => [("available_from", .jstr t.formatRFC3339)]
      | none => []) ++
     (match a.AvailableTo with
      | some t => [("available_to", .jstr t.formatRFC3339)]
      | none => []) ++
     (if a.Quarter = "" then [] else [("quarter", .jstr a.Quarter)]) ++
     [("track_attempts", .jbool a.TrackAttempts),
      ("track_confidence", .jbool a.TrackConfidence),
      ("track_time_spent", .jbool a.TrackTimeSpent)] ++
     (if a.LearningObjectives.isEmpty then []
      else [("learning_objectives", .jarr (a.LearningObjectives.map .jstr))]) ++
     (if a.Prerequisites.isEmpty then []
      else [("prerequisites", .jarr (a.Prerequisites.map .jstr))]) ++
     (if a.RecommendedCourses.isEmpty then []
      else [("recommended_courses", .jarr (a.RecommendedCourses.map .jstr))]) ++
     (if a.Tags.isEmpty then [] else [("tags", .jarr (a.Tags.map .jstr))]) ++
     [("published", .jbool a.Published)])

/-- Model of json.Marshal(pkg.Assignment). -/
def jsonMarshal (a : Assignment) : String :=
  (assignmentToJson a).render

/-- calculateHash (commands.go lines 682-686): the hex digest of the
SHA-256 hash of the JSON serialization of the package's Assignment body. -/
def calculateHash (pkg : AssignmentPackage) : String :=
  hexDigest (sha256Words (utf8Bytes (jsonMarshal pkg.Assignment)))

/-- All eight words of a hash state are 32-bit values. -/
def bounded8 (h : Hash8) : Prop :=
  h.a < 4294967296 ∧ h.b < 4294967296 ∧ h.c < 4294967296 ∧
  h.d < 4294967296 ∧ h.e < 4294967296 ∧ h.f < 4294967296 ∧
  h.g < 4294967296 ∧ h.h < 4294967296

/-- Chunk compression always produces 32-bit words. -/
theorem compressChunk_bounded (h0 : Hash8) (chunk : List Nat) :
    bounded8 (compressChunk h0 chunk) := by
  unfold bounded8 compressChunk w32
  refine ⟨?_, ?_, ?_, ?_, ?_, ?_, ?_, ?_⟩ <;> exact Nat.mod_lt _ (by norm_num)

/-- Folding chunk compression preserves 32-bit boundedness. -/
theorem foldl_compressChunk_bounded (cs : List (List Nat)) :
    ∀ h : Hash8, bounded8 h → bounded8 (cs.foldl compressChunk h) := by
  induction cs with
  | nil => intro h hb; exact hb
  | cons c cs ih =>
    intro h _
    rw [List.foldl_cons]
    exact ih _ (compressChunk_bounded h c)

/-- The SHA-256 digest words are 32-bit values. -/
theorem sha256Words_bounded (msg : List Nat) : bounded8 (sha256Words msg) :=
  foldl_compressChunk_bounded _ _ (by unfold bounded8 sha256Init; norm_num)

/-- Lowercase hexadecimal digit test (0-9, a-f). -/
def isHexDigitChar (c : Char) : Bool :=
  (48 ≤ c.toNat && c.toNat ≤ 57) || (97 ≤ c.toNat && c.toNat ≤ 102)

/-- A value reduced mod 16 renders as a hexadecimal digit. -/
theorem hexChar_mod16_isHexDigit (n : Nat) : isHexDigitChar (hexChar (n % 16)) = true := by
  have h : n % 16 < 16 := Nat.mod_lt _ (by norm_num)
  set m := n % 16 with hm
  interval_cases m <;> decide

/-- Every character of a word's hex rendering is a hexadecimal digit. -/
theorem toHex8_chars (w : Nat) : ∀ c ∈ toHex8 w, isHexDigitChar c = true := by
  intro c hc
  simp only [toHex8, List.mem_cons, List.not_mem_nil, or_false] at hc
  rcases hc with rfl | rfl | rfl | rfl | rfl | rfl | rfl | rfl <;>
    exact hexChar_mod16_isHexDigit _

/-- The assignment data model is infinite (titles are arbitrary strings). -/
instance : Infinite Assignment :=
  Infinite.of_injective
    (fun n : ℕ =>
      { (samplePackage "" "").Assignment with
        Title := String.mk (List.replicate n 'a') })
    (fun m n h => by
      have := congrArg (fun a : Assignment => a.Title.data.length) h
      simpa using this)

/-- Claim C6 (amended): calculateHash is deterministic and depends only on
the Assignment body — packages differing only in metadata hash
identically — and the output is a 64-character lowercase hexadecimal
digest of a 256-bit hash.  (Distinct assignment bodies are intended to
hash differently, but that cannot hold universally for a finite digest;
see the accompanying collision-existence result.) -/
theorem hash_deterministic_metadata_independent (p q : AssignmentPackage) :
    (p.Assignment = q.Assignment → calculateHash p = calculateHash q) ∧
    (calculateHash p).length = 64 ∧
    ∀ c ∈ (calculateHash p).data, isHexDigitChar c = true := by
  refine ⟨fun h => by unfold calculateHash; rw [h], ?_, ?_⟩
  · show (String.mk _).length = 64
    simp [String.length, toHex8]
  · intro c hc
    have hc' : c ∈ toHex8 (sha256Words (utf8Bytes (jsonMarshal p.Assignment))).a ++
        (toHex8 (sha256Words (utf8Bytes (jsonMarshal p.Assignment))).b ++
        (toHex8 (sha256Words (utf8Bytes (jsonMarshal p.Assignment))).c ++
        (toHex8 (sha256Words (utf8Bytes (jsonMarshal p.Assignment))).d ++
        (toHex8 (sha256Words (utf8Bytes (jsonMarshal p.Assignment))).e ++
        (toHex8 (sha256Words (utf8Bytes (jsonMarshal p.Assignment))).f ++
        (toHex8 (sha256Words (utf8Bytes (jsonMarshal p.Assignment))).g ++
         toHex8 (sha256Words (utf8Bytes (jsonMarshal p.Assignment))).h)))))) := hc
    simp only [List.mem_append] at hc'
    rcases hc' with h | h | h | h | h | h | h | h <;> exact toHex8_chars _ _ h

/-- Package identical to samplePackage "matching" "" except for its
package metadata (id, version, author, source hash). -/
def metaVariantPackage : AssignmentPackage :=
  { samplePackage "matching" "" with
    Metadata := ⟨"other-id", "2.0.0", ⟨2025, 6, 30, 12, 0, 0⟩,
      ⟨2025, 6, 30, 12, 0, 0⟩, "someone else", "e@x", "MIT", ["t"], "d",
      "fr", "other-hash", [("k", "v")]⟩ }

/-- Witness for hash_deterministic_metadata_independent: two packages with
equal Assignment bodies but different metadata hash identically, and the
digest is 64 hexadecimal characters. -/
theorem hash_deterministic_metadata_independent_witness :
    (samplePackage "matching" "").Assignment = metaVariantPackage.Assignment ∧
    calculateHash (samplePackage "matching" "") = calculateHash metaVariantPackage ∧
    (calculateHash (samplePackage "matching" "")).length = 64 ∧
    ∀ c ∈ (calculateHash (samplePackage "matching" "")).data, isHexDigitChar c = true :=
  ⟨rfl,
   (hash_deterministic_metadata_independent (samplePackage "matching" "")
     metaVariantPackage).1 rfl,
   (hash_deterministic_metadata_independent (samplePackage "matching" "")
     metaVariantPackage).2.1,
   (hash_deterministic_metadata_independent (samplePackage "matching" "")
     metaVariantPackage).2.2⟩

/-- Counterexample to claim C6 as stated: it is not true that any two
packages with different Assignment bodies have different digests — the
assignment space is infinite while the 256-bit digest space is finite, so
collisions exist. -/
theorem hash_collisions_exist :
    ¬ (∀ p q : AssignmentPackage, p.Assignment ≠ q.Assignment →
        calculateHash p ≠ calculateHash q) := by
  intro hinj
  obtain ⟨x, y, hxy, hf⟩ := Finite.exists_ne_map_eq_of_infinite
    (fun asg : Assignment =>
      ((⟨(sha256Words (utf8Bytes (jsonMarshal asg))).a,
         (sha256Words_bounded (utf8Bytes (jsonMarshal asg))).1⟩ : Fin 4294967296),
       (⟨(sha256Words (utf8Bytes (jsonMarshal asg))).b,
         (sha256Words_bounded (utf8Bytes (jsonMarshal asg))).2.1⟩ : Fin 4294967296),
       (⟨(sha256Words (utf8Bytes (jsonMarshal asg))).c,
         (sha256Words_bounded (utf8Bytes (jsonMarshal asg))).2.2.1⟩ : Fin 4294967296),
       (⟨(sha256Words (utf8Bytes (jsonMarshal asg))).d,
         (sha256Words_bounded (utf8Bytes (jsonMarshal asg))).2.2.2.1⟩ : Fin 4294967296),
       (⟨(sha256Words (utf8Bytes (jsonMarshal asg))).e,
         (sha256Words_bounded (utf8Bytes (jsonMarshal asg))).2.2.2.2.1⟩ : Fin 4294967296),
       (⟨(sha256Words (utf8Bytes (jsonMarshal asg))).f,
         (sha256Words_bounded (utf8Bytes (jsonMarshal asg))).2.2.2.2.2.1⟩ : Fin 4294967296),
       (⟨(sha256Words (utf8Bytes (jsonMarshal asg))).g,
         (sha256Words_bounded (utf8Bytes (jsonMarshal asg))).2.2.2.2.2.2.1⟩ : Fin 4294967296),
       (⟨(sha256Words (utf8Bytes (jsonMarshal asg))).h,
         (sha256Words_bounded (utf8Bytes (jsonMarshal asg))).2.2.2.2.2.2.2⟩ : Fin 4294967296)))
  simp only [Prod.mk.injEq, Fin.mk.injEq] at hf
  have hw : sha256Words (utf8Bytes (jsonMarshal x)) =
      sha256Words (utf8Bytes (jsonMarshal y)) := by
    obtain ⟨h1, h2, h3, h4, h5, h6, h7, h8⟩ := hf
    cases hx : sha256Words (utf8Bytes (jsonMarshal x))
    cases hy : sha256Words (utf8Bytes (jsonMarshal y))
    simp_all
  refine hinj { samplePackage "" "" with Assignment := x }
    { samplePackage "" "" with Assignment := y } hxy ?_
  show hexDigest (sha256Words (utf8Bytes (jsonMarshal x))) =
    hexDigest (sha256Words (utf8Bytes (jsonMarshal y)))
  rw [hw]
